import Mathlib

/-!
Shallow embedding of `backend/main.py` (Health Survey API).

Modelling conventions:
* The two backing CSV files are modelled as fields of an `FsState`
  structure; a missing file is `none`, a present file is `some rows`
  (for the survey file, `some []` is a file holding only the header row).
* Python floats are modelled as exact rationals (`ℚ`); Python's
  `round(x, 1)` is modelled as round-half-to-even on `10 * x`
  (`pyRound1`), matching Python's documented rounding mode.
* `fastapi.HTTPException` is modelled by `HTTPError`; `str(e)` of such an
  exception is `"{status_code}: {detail}"` (`HTTPError.str`), matching
  Starlette's `HTTPException.__str__`.  A handler's `try/except
  Exception` block is modelled by a `*_try` function for the `try` body
  and a wrapper that maps any raised `HTTPError` through the
  `except` clause.  Note that in Python `HTTPException` is a subclass of
  `Exception`, so an `HTTPException` raised inside the `try` body *is*
  caught by the handler's own blanket `except Exception` clause and
  re-raised as a 500 error.
* `datetime.now()` is modelled by passing the formatted timestamp string
  as an explicit argument `now`.
* The statistics endpoint operates on a pandas DataFrame read from the
  survey CSV.  Since that CSV may in general lack columns or hold
  missing values, the DataFrame is modelled column-wise (`SurveyDF`):
  each numeric column is a list of `Option ℚ` (`none` = NaN) together
  with a presence flag (`false` = column absent, i.e. `c in df.columns`
  fails).  `Series.mean` skips NaN; `Series.isna().all()` is `isnaAll`.
  Presentation-only parts of the code (Excel cell styling, column
  widths, the `date_range`/`file_info` metadata, filenames embedding
  timestamps, HTTP streaming) are outside the file-content model.
-/

namespace PahtamaSurvey

/-- Python's `str.zfill(width)` on the character list: left-pad with
`'0'` up to `width`, keeping a leading sign character in front of the
padding; lists of length ≥ `width` are returned unchanged. -/
def zfillChars (l : List Char) (width : Nat) : List Char :=
  if width ≤ l.length then l
  else
    match l with
    | [] => List.replicate width '0'
    | c :: rest =>
      if c = '+' ∨ c = '-' then
        c :: (List.replicate (width - (rest.length + 1)) '0' ++ rest)
      else
        List.replicate (width - (rest.length + 1)) '0' ++ (c :: rest)

/-- Python's `str.zfill(width)`. -/
def zfill (s : String) (width : Nat) : String :=
  String.mk (zfillChars s.data width)

/-- Round-half-to-even to an integer, Python's `round(q)` on exact values. -/
def pyRoundInt (q : ℚ) : ℤ :=
  let f : ℤ := ⌊q⌋
  let frac : ℚ := q - f
  if frac < 1/2 then f
  else if 1/2 < frac then f + 1
  else if f % 2 = 0 then f else f + 1

/-- Python's `round(q, 1)` (one decimal place, ties to even). -/
def pyRound1 (q : ℚ) : ℚ := (pyRoundInt (q * 10) : ℚ) / 10

/-- Model of `fastapi.HTTPException(status_code, detail)`. -/
structure HTTPError where
  status_code : Nat
  detail : String
deriving Repr, DecidableEq

/-- Starlette's `HTTPException.__str__`: `"{status_code}: {detail}"`. -/
def HTTPError.str (e : HTTPError) : String :=
  toString e.status_code ++ ": " ++ e.detail

/-- One raw row of `data/employees.csv` (both columns read as strings,
`dtype={'EmployeeNumber': str}`). -/
structure EmployeeRow where
  EmployeeNumber : String
  EmployeeName : String
deriving Repr, DecidableEq

/-- The `Employee` pydantic model of `main.py`. -/
structure Employee where
  EmployeeNumber : String
  EmployeeName : String
deriving Repr, DecidableEq

/-- The `SurveySubmission` pydantic model of `main.py`. -/
structure SurveySubmission where
  employeeNumber : String
  employeeName : String
  gender : String
  age : Int
  waistCircumference : ℚ
  heightFeet : Int
  heightInches : Int
  weight : ℚ
  bmi : ℚ
  bmiCategory : String
deriving Repr, DecidableEq

/-- One stored row of `data/survey_responses.csv`, in the column order
used throughout `main.py`. -/
structure SurveyRow where
  SubmissionDate : String
  EmployeeNumber : String
  EmployeeName : String
  Gender : String
  Age : Int
  WaistCircumference : ℚ
  HeightFeet : Int
  HeightInches : Int
  WeightLb : ℚ
  BMI : ℚ
  BMICategory : String
deriving Repr, DecidableEq

/-- The persistent state: the two backing CSV files.  `none` models an
absent file; for `surveyFile`, `some []` models the header-only file
written by `initialize_survey_csv`. -/
structure FsState where
  employeesFile : Option (List EmployeeRow)
  surveyFile : Option (List SurveyRow)
deriving Repr, DecidableEq

/-- The `try` body of `load_employees`: 404 if the file is absent,
otherwise each row's `EmployeeNumber` is `str(...).zfill(8)`. -/
def load_employees_try (st : FsState) : Except HTTPError (List Employee) :=
  match st.employeesFile with
  | none => .error ⟨404, "Employee data file not found"⟩
  | some rows =>
      .ok (rows.map fun r => ⟨zfill r.EmployeeNumber 8, r.EmployeeName⟩)

/-- `load_employees`: the `except Exception` clause catches the
`HTTPException` raised in the `try` body (it is an `Exception`) and
re-raises it as a 500 wrapping `str(e)`. -/
def load_employees (st : FsState) : Except HTTPError (List Employee) :=
  match load_employees_try st with
  | .ok es => .ok es
  | .error e => .error ⟨500, "Error loading employee data: " ++ e.str⟩

/-- `initialize_survey_csv`: create the header-only survey CSV if the
file is absent; a no-op otherwise. -/
def initialize_survey_csv (st : FsState) : FsState :=
  if st.surveyFile.isSome then st else { st with surveyFile := some [] }

/-- The `survey_data` dict built by `submit_survey` for an accepted
submission: `EmployeeNumber` is the zero-padded input, `BMI` is
`round(survey.bmi, 1)`, every other field is stored verbatim. -/
def survey_data (now : String) (survey : SurveySubmission) : SurveyRow :=
  { SubmissionDate := now
    EmployeeNumber := zfill survey.employeeNumber 8
    EmployeeName := survey.employeeName
    Gender := survey.gender
    Age := survey.age
    WaistCircumference := survey.waistCircumference
    HeightFeet := survey.heightFeet
    HeightInches := survey.heightInches
    WeightLb := survey.weight
    BMI := pyRound1 survey.bmi
    BMICategory := survey.bmiCategory }

/-- The `try` body of `submit_survey`: load the roster (via
`load_employees`, whose own failures surface as 500 errors), zero-pad
the submitted id, raise 400 `"Invalid employee number"` if it is not a
roster number, otherwise append exactly one row (creating the file when
absent) and return the stored record.  The state is returned alongside
the result; every failing path leaves it untouched, since the
validation `raise` precedes the `to_csv` write. -/
def submit_survey_try (now : String) (survey : SurveySubmission)
    (st : FsState) : Except HTTPError SurveyRow × FsState :=
  match load_employees st with
  | .error e => (.error e, st)
  | .ok employees =>
    let employee_numbers := employees.map (·.EmployeeNumber)
    let formatted_emp_num := zfill survey.employeeNumber 8
    if formatted_emp_num ∈ employee_numbers then
      let row := survey_data now survey
      let updated :=
        match st.surveyFile with
        | some existing => existing ++ [row]
        | none => [row]
      (.ok row, { st with surveyFile := some updated })
    else
      (.error ⟨400, "Invalid employee number"⟩, st)

/-- `submit_survey`: the blanket `except Exception` clause catches the
`HTTPException` raised in the `try` body and re-raises it as a 500. -/
def submit_survey (now : String) (survey : SurveySubmission)
    (st : FsState) : Except HTTPError SurveyRow × FsState :=
  match submit_survey_try now survey st with
  | (.ok r, st2) => (.ok r, st2)
  | (.error e, st2) =>
      (.error ⟨500, "Error submitting survey: " ++ e.str⟩, st2)

/-- `get_survey_responses` (`GET /survey-responses`): the empty sequence
when the file is absent, otherwise all rows in file order. -/
def get_survey_responses (st : FsState) : List SurveyRow :=
  match st.surveyFile with
  | none => []
  | some rows => rows

/-- Run a list of `(now, submission)` pairs through `submit_survey`
sequentially, threading the state. -/
def runSubmissions : List (String × SurveySubmission) → FsState → FsState
  | [], st => st
  | p :: rest, st => runSubmissions rest (submit_survey p.1 p.2 st).2

/-! ### Exporter (`/download-survey-responses`, `/download-survey-responses-excel`) -/

/-- Fuel-limited decimal expansion of the fractional part `f`
(`0 ≤ f < 1`), most significant digit first. -/
def fracDigits : Nat → ℚ → List Char
  | 0, _ => []
  | k+1, f =>
    let f10 := f * 10
    let d : ℤ := ⌊f10⌋
    Char.ofNat (48 + d.toNat) :: fracDigits k (f10 - d)

/-- Drop trailing `'0'` digits. -/
def stripTrailingZeros (l : List Char) : List Char :=
  (l.reverse.dropWhile (· = '0')).reverse

/-- Rendering of a float-typed cell (e.g. `24.3`, `30.0`). -/
def ratCell (q : ℚ) : String :=
  let sgn := if q < 0 then "-" else ""
  let a := |q|
  let ip : ℤ := ⌊a⌋
  let ds := stripTrailingZeros (fracDigits 12 (a - ip))
  sgn ++ toString ip ++ "." ++ String.mk (if ds.isEmpty then ['0'] else ds)

/-- Rendering of an integer-typed cell. -/
def intCell (i : ℤ) : String := toString i

/-- The `expected_columns` list of `download_survey_responses`. -/
def expected_columns : List String :=
  ["SubmissionDate", "EmployeeNumber", "EmployeeName", "Gender", "Age",
   "Waist Circumference (inches)", "Height - Feet", "Height - Inches",
   "Weight (lb)", "BMI", "BMI Category"]

/-- The `expected_columns` list of `download_survey_responses_excel`
(a second, textually separate list in the source). -/
def excel_expected_columns : List String :=
  ["SubmissionDate", "EmployeeNumber", "EmployeeName", "Gender", "Age",
   "Waist Circumference (inches)", "Height - Feet", "Height - Inches",
   "Weight (lb)", "BMI", "BMI Category"]

/-- The cells of one stored row, in the fixed export column order. -/
def surveyRowCells (r : SurveyRow) : List String :=
  [r.SubmissionDate, r.EmployeeNumber, r.EmployeeName, r.Gender,
   intCell r.Age, ratCell r.WaistCircumference, intCell r.HeightFeet,
   intCell r.HeightInches, ratCell r.WeightLb, ratCell r.BMI,
   r.BMICategory]

/-- CSV escaping inside a quoted field: double every `'\"'`. -/
def escChars : List Char → List Char
  | [] => []
  | c :: cs =>
    if c = '\"' then '\"' :: '\"' :: escChars cs else c :: escChars cs

/-- CSV escaping of a whole field. -/
def csvEscape (s : String) : String := String.mk (escChars s.data)

/-- `csv.QUOTE_ALL` field rendering (pandas `to_csv(quoting=1)`):
every field is wrapped in double quotes. -/
def quoteField (s : String) : String := "\"" ++ csvEscape s ++ "\""

/-- One CSV line under `QUOTE_ALL`: every field quoted, comma-separated. -/
def csvLine (cells : List String) : String :=
  String.intercalate "," (cells.map quoteField)

/-- pandas `df.to_csv(index=False, quoting=1)`: header line then one
line per row, each line terminated by `"\n"`. -/
def to_csv_quote_all (header : List String) (rows : List (List String)) :
    String :=
  String.intercalate "\n" (csvLine header :: rows.map csvLine) ++ "\n"

/-- The `try` body of `download_survey_responses`: 404 if the file is
absent, 404 if it holds zero rows, otherwise the `QUOTE_ALL` CSV text
over the fixed `expected_columns` order. -/
def download_survey_responses_try (st : FsState) :
    Except HTTPError String :=
  match st.surveyFile with
  | none => .error ⟨404, "No survey responses found"⟩
  | some rows =>
    if rows.isEmpty then
      .error ⟨404, "No survey responses available for download"⟩
    else
      .ok (to_csv_quote_all expected_columns (rows.map surveyRowCells))

/-- `download_survey_responses`: the blanket `except Exception` clause
catches the `HTTPException` raised in the `try` body (it is neither a
`FileNotFoundError` nor uncaught) and re-raises it as a 500. -/
def download_survey_responses (st : FsState) : Except HTTPError String :=
  match download_survey_responses_try st with
  | .ok s => .ok s
  | .error e =>
      .error ⟨500, "Error downloading survey responses: " ++ e.str⟩

/-- The `try` body of `download_survey_responses_excel`: 404 if the file
is absent, 404 if it holds zero rows, otherwise the cell grid written to
the worksheet (header row then data rows; styling is presentation-only
and outside the model). -/
def download_survey_responses_excel_try (st : FsState) :
    Except HTTPError (List (List String)) :=
  match st.surveyFile with
  | none => .error ⟨404, "No survey responses found"⟩
  | some rows =>
    if rows.isEmpty then
      .error ⟨404, "No survey responses available for download"⟩
    else
      .ok (excel_expected_columns :: rows.map surveyRowCells)

/-- `download_survey_responses_excel`: the blanket `except Exception`
clause catches the `HTTPException` raised in the `try` body and
re-raises it as a 500. -/
def download_survey_responses_excel (st : FsState) :
    Except HTTPError (List (List String)) :=
  match download_survey_responses_excel_try st with
  | .ok t => .ok t
  | .error e =>
      .error ⟨500, "Error downloading survey responses: " ++ e.str⟩

/-! ### Aggregator (`/survey-stats`) -/

/-- Column-wise model of the DataFrame read from the survey CSV: each
column carries a presence flag (`hasX = false` models `X ∉ df.columns`)
and, for numeric columns, a list of `Option ℚ` entries (`none` = NaN). -/
structure SurveyDF where
  nrows : Nat
  hasGender : Bool
  genderCol : List String
  hasAge : Bool
  ageCol : List (Option ℚ)
  hasBMI : Bool
  bmiCol : List (Option ℚ)
  hasBMICategory : Bool
  bmiCategoryCol : List String
  hasWaist : Bool
  waistCol : List (Option ℚ)
  hasWeight : Bool
  weightCol : List (Option ℚ)
  hasHeightFeet : Bool
  heightFeetCol : List (Option ℚ)
  hasHeightInches : Bool
  heightInchesCol : List (Option ℚ)
deriving Repr, DecidableEq

/-- The DataFrame obtained by reading back rows written by this app:
all columns present, no missing values. -/
def rowsToDF (rows : List SurveyRow) : SurveyDF :=
  { nrows := rows.length
    hasGender := true
    genderCol := rows.map (·.Gender)
    hasAge := true
    ageCol := rows.map (fun r => some (r.Age : ℚ))
    hasBMI := true
    bmiCol := rows.map (fun r => some r.BMI)
    hasBMICategory := true
    bmiCategoryCol := rows.map (·.BMICategory)
    hasWaist := true
    waistCol := rows.map (fun r => some r.WaistCircumference)
    hasWeight := true
    weightCol := rows.map (fun r => some r.WeightLb)
    hasHeightFeet := true
    heightFeetCol := rows.map (fun r => some (r.HeightFeet : ℚ))
    hasHeightInches := true
    heightInchesCol := rows.map (fun r => some (r.HeightInches : ℚ)) }

/-- `Series.isna().all()`: no non-NaN entry (vacuously true if empty). -/
def isnaAll (col : List (Option ℚ)) : Bool := (col.filterMap id).isEmpty

/-- Arithmetic mean of a list of rationals (`Series.mean` over the
non-NaN entries). -/
def listMean (l : List ℚ) : ℚ := l.sum / l.length

/-- Distinct values in order of first appearance. -/
def firstOccurrences (xs : List String) : List String :=
  xs.foldl (fun acc x => if x ∈ acc then acc else acc ++ [x]) []

/-- Stable insertion keeping the list sorted by count, descending. -/
def insertByCountDesc (p : String × Nat) :
    List (String × Nat) → List (String × Nat)
  | [] => [p]
  | q :: qs => if q.2 < p.2 then p :: q :: qs else q :: insertByCountDesc p qs

/-- pandas `Series.value_counts().to_dict()`: occurrence counts of each
distinct value, sorted by count descending (stable w.r.t. first
appearance). -/
def value_counts (xs : List String) : List (String × Nat) :=
  ((firstOccurrences xs).map fun v => (v, (xs.filter (· = v)).length)).foldl
    (fun acc p => insertByCountDesc p acc) []

/-- Element-wise `df['Height - Feet'] * 12 + df['Height - Inches']`:
NaN propagates through the arithmetic. -/
def heightTotals (df : SurveyDF) : List (Option ℚ) :=
  List.zipWith (fun f i =>
    match f, i with
    | some fv, some iv => some (fv * 12 + iv)
    | _, _ => none) df.heightFeetCol df.heightInchesCol

/-- The `averages` sub-object of the `/survey-stats` response. -/
structure Averages where
  age : ℚ
  bmi : ℚ
  waist_circumference_inches : ℚ
  weight_lb : ℚ
  height_feet : ℤ
  height_inches : ℚ
deriving Repr, DecidableEq

/-- The non-empty `/survey-stats` response body (the `date_range` and
`file_info` metadata are presentation-only and outside the model). -/
structure SurveyStats where
  total_responses : Nat
  gender_distribution : List (String × Nat)
  averages : Averages
  bmi_categories : List (String × Nat)
deriving Repr, DecidableEq

/-- Result of `get_survey_statistics`: either one of the two early
`{total_responses: 0, message: ...}` shapes (absent file / empty
DataFrame), or the full statistics object. -/
inductive StatsResult where
  | empty (total_responses : Nat) (message : String)
  | full (stats : SurveyStats)
deriving Repr, DecidableEq

/-- The average of one numeric column as computed by
`get_survey_statistics`: `round(col.mean(), 1)` when the column is
present and not entirely NaN, else 0. -/
def colAverage (colHas : Bool) (col : List (Option ℚ)) : ℚ :=
  if colHas && !(isnaAll col) then pyRound1 (listMean (col.filterMap id))
  else 0

/-- The `(avg_height_feet, avg_height_inches)` pair computed by
`get_survey_statistics`: the total-inches column is averaged, the
average is rounded to one decimal, and only then decomposed with
`int(avg // 12)` and `round(avg % 12, 1)`; `(0, 0)` when either height
column is missing, when no valid height data exists, or when the
rounded average is not positive. -/
def heightPair (df : SurveyDF) : ℤ × ℚ :=
  if df.hasHeightFeet && df.hasHeightInches then
    let totals := heightTotals df
    let avg_height_total_inches :=
      if !(isnaAll totals) then
        pyRound1 (listMean (totals.filterMap id)) else 0
    if 0 < avg_height_total_inches then
      (⌊avg_height_total_inches / 12⌋,
       pyRound1 (avg_height_total_inches -
         12 * (⌊avg_height_total_inches / 12⌋ : ℚ)))
    else ((0 : ℤ), (0 : ℚ))
  else ((0 : ℤ), (0 : ℚ))

/-- `get_survey_statistics` (`GET /survey-stats`) on the survey
DataFrame (`none` = file absent). -/
def get_survey_statistics : Option SurveyDF → StatsResult
  | none => .empty 0 "No survey data available"
  | some df =>
    if df.nrows = 0 then .empty 0 "No survey responses available"
    else
      let gender_distribution :=
        if df.hasGender then value_counts df.genderCol else []
      let avg_age := colAverage df.hasAge df.ageCol
      let avg_bmi := colAverage df.hasBMI df.bmiCol
      let bmi_categories :=
        if df.hasBMICategory then value_counts df.bmiCategoryCol else []
      let avg_waist := colAverage df.hasWaist df.waistCol
      let avg_weight := colAverage df.hasWeight df.weightCol
      let hpair := heightPair df
      .full
        { total_responses := df.nrows
          gender_distribution := gender_distribution
          averages :=
            { age := avg_age
              bmi := avg_bmi
              waist_circumference_inches := avg_waist
              weight_lb := avg_weight
              height_feet := hpair.1
              height_inches := hpair.2 }
          bmi_categories := bmi_categories }

/-- `total_responses` of either response shape. -/
def StatsResult.totalResponses : StatsResult → Nat
  | .empty t _ => t
  | .full s => s.total_responses

/-- `averages.age` of the full shape (0 on the empty shapes). -/
def StatsResult.avgAge : StatsResult → ℚ
  | .empty _ _ => 0
  | .full s => s.averages.age

/-- `averages.bmi` of the full shape (0 on the empty shapes). -/
def StatsResult.avgBMI : StatsResult → ℚ
  | .empty _ _ => 0
  | .full s => s.averages.bmi

/-- `averages.waist_circumference_inches` of the full shape. -/
def StatsResult.avgWaist : StatsResult → ℚ
  | .empty _ _ => 0
  | .full s => s.averages.waist_circumference_inches

/-- `averages.weight_lb` of the full shape. -/
def StatsResult.avgWeight : StatsResult → ℚ
  | .empty _ _ => 0
  | .full s => s.averages.weight_lb

/-- `averages.height_feet` of the full shape. -/
def StatsResult.avgHeightFeet : StatsResult → ℤ
  | .empty _ _ => 0
  | .full s => s.averages.height_feet

/-- `averages.height_inches` of the full shape. -/
def StatsResult.avgHeightInches : StatsResult → ℚ
  | .empty _ _ => 0
  | .full s => s.averages.height_inches

/-! ### Helper lemmas -/

lemma length_mk (l : List Char) : (String.mk l).length = l.length := rfl

lemma data_mk (l : List Char) : (String.mk l).data = l := rfl

lemma zfillChars_of_length_ge (l : List Char) (w : Nat) (h : w ≤ l.length) :
    zfillChars l w = l := by
  unfold zfillChars
  simp [h]

lemma zfill_of_length_ge (s : String) (w : Nat) (h : w ≤ s.length) :
    zfill s w = s := by
  unfold zfill
  rw [zfillChars_of_length_ge s.data w h]

lemma zfillChars_digits_of_lt (l : List Char) (w : Nat)
    (hdig : ∀ c ∈ l, c.isDigit) (h : l.length < w) :
    zfillChars l w = List.replicate (w - l.length) '0' ++ l := by
  unfold zfillChars
  rw [if_neg (by omega)]
  cases l with
  | nil => simp
  | cons c rest =>
    have hc : c.isDigit := hdig c (List.mem_cons_self c rest)
    have hns : ¬(c = '+' ∨ c = '-') := by
      rintro (rfl | rfl) <;> exact absurd hc (by decide)
    dsimp only
    rw [if_neg hns]
    simp

lemma zfill_digits_of_lt (s : String) (w : Nat)
    (hdig : ∀ c ∈ s.data, c.isDigit) (h : s.length < w) :
    zfill s w = String.mk (List.replicate (w - s.length) '0' ++ s.data) := by
  unfold zfill
  rw [zfillChars_digits_of_lt s.data w hdig h]
  rfl

lemma zfillChars_length (l : List Char) (w : Nat) :
    (zfillChars l w).length = max w l.length := by
  unfold zfillChars
  by_cases h : w ≤ l.length
  · rw [if_pos h]
    omega
  · rw [if_neg h]
    cases l with
    | nil => simp
    | cons c rest =>
      simp only [List.length_cons] at h
      dsimp only
      by_cases hsign : c = '+' ∨ c = '-'
      · rw [if_pos hsign]
        simp only [List.length_cons, List.length_append,
          List.length_replicate]
        omega
      · rw [if_neg hsign]
        simp only [List.length_append, List.length_replicate,
          List.length_cons]
        omega

lemma zfill_length (s : String) (w : Nat) :
    (zfill s w).length = max w s.length := by
  unfold zfill
  rw [length_mk, zfillChars_length]
  rfl

lemma zfill_zfill (s : String) (w : Nat) :
    zfill (zfill s w) w = zfill s w :=
  zfill_of_length_ge _ _ (by rw [zfill_length]; exact le_max_left _ _)

lemma load_employees_some (st : FsState) (ers : List EmployeeRow)
    (h : st.employeesFile = some ers) :
    load_employees st =
      .ok (ers.map fun r =>
        (⟨zfill r.EmployeeNumber 8, r.EmployeeName⟩ : Employee)) := by
  unfold load_employees load_employees_try
  rw [h]

lemma submit_survey_valid (now : String) (survey : SurveySubmission)
    (st : FsState) (ers : List EmployeeRow) (rows : List SurveyRow)
    (hemp : st.employeesFile = some ers) (hsur : st.surveyFile = some rows)
    (hvalid : zfill survey.employeeNumber 8 ∈
      ers.map fun r => zfill r.EmployeeNumber 8) :
    submit_survey now survey st =
      (.ok (survey_data now survey),
        ⟨some ers, some (rows ++ [survey_data now survey])⟩) := by
  obtain ⟨ef, sf⟩ := st
  simp only [FsState.employeesFile] at hemp
  simp only [FsState.surveyFile] at hsur
  subst hemp
  subst hsur
  unfold submit_survey submit_survey_try
  rw [load_employees_some ⟨some ers, some rows⟩ ers rfl]
  have hex : ∃ a ∈ ers,
      zfill a.EmployeeNumber 8 = zfill survey.employeeNumber 8 := by
    simpa using hvalid
  simp [hex]

lemma submit_survey_invalid (now : String) (survey : SurveySubmission)
    (st : FsState) (ers : List EmployeeRow)
    (hemp : st.employeesFile = some ers)
    (hinv : zfill survey.employeeNumber 8 ∉
      ers.map fun r => zfill r.EmployeeNumber 8) :
    submit_survey now survey st =
      (.error ⟨500, "Error submitting survey: 400: Invalid employee number"⟩,
        st) := by
  unfold submit_survey submit_survey_try
  rw [load_employees_some st ers hemp]
  have hnex : ¬∃ a ∈ ers,
      zfill a.EmployeeNumber 8 = zfill survey.employeeNumber 8 := by
    simpa using hinv
  simp only [List.map_map]
  simp [hnex, HTTPError.str]
  decide

/-- A one-employee roster used by the concrete instances below. -/
def rosterEx : List EmployeeRow := [⟨"00070098", "Aye Aye Tun"⟩]

/-- A submission whose identifier (already 8 digits) is not in
`rosterEx`. -/
def subInvalid : SurveySubmission :=
  ⟨"99999999", "Mg Mg", "Male", 30, 30, 5, 11, 150, 243/10, "Normal"⟩

/-- A submission whose identifier `"70098"` normalizes to `"00070098"`,
which is in `rosterEx`. -/
def subValid : SurveySubmission :=
  ⟨"70098", "Aye Aye Tun", "Female", 30, 30, 5, 11, 150, 243/10, "Normal"⟩

lemma runSubmissions_state (ers : List EmployeeRow)
    (subs : List (String × SurveySubmission)) :
    ∀ (st : FsState) (rows : List SurveyRow),
      st.employeesFile = some ers → st.surveyFile = some rows →
      (∀ p ∈ subs, zfill (p.2).employeeNumber 8 ∈
        ers.map fun r => zfill r.EmployeeNumber 8) →
      runSubmissions subs st =
        ⟨some ers, some (rows ++ subs.map fun p => survey_data p.1 p.2)⟩ := by
  induction subs with
  | nil =>
    intro st rows hemp hsur _
    obtain ⟨ef, sf⟩ := st
    simp only [FsState.employeesFile] at hemp
    simp only [FsState.surveyFile] at hsur
    subst hemp
    subst hsur
    simp [runSubmissions]
  | cons p rest ih =>
    intro st rows hemp hsur hval
    unfold runSubmissions
    rw [submit_survey_valid p.1 p.2 st ers rows hemp hsur
      (hval p (List.mem_cons_self p rest))]
    rw [ih ⟨some ers, some (rows ++ [survey_data p.1 p.2])⟩
      (rows ++ [survey_data p.1 p.2]) rfl rfl
      (fun q hq => hval q (List.mem_cons_of_mem p hq))]
    simp

/-! ### Claims -/

/-- C1: the claim states that a submission whose zero-padded employee id
is not in the Roster fails with HTTP 400 and the message "Invalid
employee number".  The `try` body of `submit_survey` does raise exactly
that `HTTPException(400, "Invalid employee number")`, but the handler's
own blanket `except Exception` clause catches it (an `HTTPException` is
an `Exception`) and re-raises it as HTTP 500 with the wrapped message.
This theorem evaluates the embedded handler at such a failing input:
the surfaced response is the 500 wrapping, not the claimed 400. -/
theorem C1_invalid_id_surfaces_500_not_400 :
    zfill subInvalid.employeeNumber 8 ∉
      rosterEx.map (fun r => zfill r.EmployeeNumber 8) ∧
    submit_survey "2026-01-01 00:00:00" subInvalid
        ⟨some rosterEx, some []⟩ =
      (.error ⟨500, "Error submitting survey: 400: Invalid employee number"⟩,
        ⟨some rosterEx, some []⟩) := by
  exact ⟨by decide, rfl⟩

/-- C2: the claim states that both export operations fail with HTTP 404
when the record store file is absent or holds zero records.  Both `try`
bodies do raise `HTTPException(404, ...)`, but each handler's blanket
`except Exception` clause catches it (it is not a `FileNotFoundError`,
so the first clause does not apply) and re-raises it as HTTP 500.  This
theorem evaluates both embedded handlers at both failing states. -/
theorem C2_downloads_surface_500_not_404 :
    download_survey_responses ⟨some rosterEx, none⟩ =
      .error ⟨500,
        "Error downloading survey responses: 404: No survey responses found"⟩ ∧
    download_survey_responses ⟨some rosterEx, some []⟩ =
      .error ⟨500,
        "Error downloading survey responses: 404: No survey responses available for download"⟩ ∧
    download_survey_responses_excel ⟨some rosterEx, none⟩ =
      .error ⟨500,
        "Error downloading survey responses: 404: No survey responses found"⟩ ∧
    download_survey_responses_excel ⟨some rosterEx, some []⟩ =
      .error ⟨500,
        "Error downloading survey responses: 404: No survey responses available for download"⟩ := by
  exact ⟨rfl, rfl, rfl, rfl⟩

/-- C3: the claim states that the Roster load fails with HTTP 404 when
the roster file is absent.  `load_employees` does raise
`HTTPException(404, "Employee data file not found")` in its `try` body,
but its own `except Exception` clause catches it and re-raises it as
HTTP 500 with the wrapped message.  This theorem evaluates the embedded
loader at the absent-file state. -/
theorem C3_roster_load_surfaces_500_not_404 :
    load_employees ⟨none, none⟩ =
      .error ⟨500,
        "Error loading employee data: 404: Employee data file not found"⟩ := by
  rfl

/-- C4: a submission whose normalized employee identifier is not in the
Roster fails before any write occurs: the submit operation returns an
error and the record store file is exactly what it was before the
request. -/
theorem C4_invalid_id_no_write (now : String) (survey : SurveySubmission)
    (st : FsState) (ers : List EmployeeRow)
    (hemp : st.employeesFile = some ers)
    (hinv : zfill survey.employeeNumber 8 ∉
      ers.map fun r => zfill r.EmployeeNumber 8) :
    submit_survey now survey st =
      (.error ⟨500, "Error submitting survey: 400: Invalid employee number"⟩,
        st) ∧
    (submit_survey now survey st).2.surveyFile = st.surveyFile := by
  have h := submit_survey_invalid now survey st ers hemp hinv
  exact ⟨h, by rw [h]⟩

/-- Witness for C4 at a concrete roster, state and submission. -/
theorem C4_invalid_id_no_write_witness :
    (submit_survey "2026-01-01 00:00:00" subInvalid
      ⟨some rosterEx, some []⟩).2.surveyFile = some [] :=
  (C4_invalid_id_no_write "2026-01-01 00:00:00" subInvalid
    ⟨some rosterEx, some []⟩ rosterEx rfl (by decide)).2

/-- C5: every employee identifier loaded from the Roster is
`zfill`-normalized; on a decimal-digit identifier shorter than 8
characters `zfill` left-pads with zeros to exactly 8 characters, on an
8-character identifier it is the identity, and it is idempotent. -/
theorem C5_roster_normalization (st : FsState) (rows : List EmployeeRow)
    (h : st.employeesFile = some rows) (s : String)
    (hdig : ∀ c ∈ s.data, c.isDigit) :
    load_employees st =
      .ok (rows.map fun r =>
        (⟨zfill r.EmployeeNumber 8, r.EmployeeName⟩ : Employee)) ∧
    (s.length < 8 →
      zfill s 8 = String.mk (List.replicate (8 - s.length) '0' ++ s.data) ∧
      (zfill s 8).length = 8) ∧
    (s.length = 8 → zfill s 8 = s) ∧
    zfill (zfill s 8) 8 = zfill s 8 := by
  refine ⟨load_employees_some st rows h, fun hlt => ?_, fun heq => ?_,
    zfill_zfill s 8⟩
  · exact ⟨zfill_digits_of_lt s 8 hdig hlt,
      by rw [zfill_length]; omega⟩
  · exact zfill_of_length_ge s 8 (by omega)

/-- Witness for C5 at a concrete roster and the identifier "70098". -/
theorem C5_roster_normalization_witness :
    zfill "70098" 8 = "00070098" ∧ zfill "00070098" 8 = "00070098" := by
  have h := C5_roster_normalization ⟨some rosterEx, none⟩ rosterEx rfl
    "70098" (by decide)
  have h8 := C5_roster_normalization ⟨some rosterEx, none⟩ rosterEx rfl
    "00070098" (by decide)
  exact ⟨((h.2.1 (by decide)).1).trans (by decide), h8.2.2.1 (by decide)⟩

/-- C6: a submission whose normalized identifier is in the Roster
appends exactly one row, whose stored `EmployeeNumber` is the
zero-padded input; `get_survey_responses` (readAll) on a freshly
initialized empty store is the empty sequence; and after N accepted
submissions readAll returns exactly the N new records, appended in
submission order after any pre-existing rows. -/
theorem C6_submit_append_readAll (ers : List EmployeeRow)
    (rows : List SurveyRow) (subs : List (String × SurveySubmission))
    (st : FsState) (now : String) (survey : SurveySubmission)
    (hemp : st.employeesFile = some ers) (hsur : st.surveyFile = some rows)
    (hval : ∀ p ∈ subs, zfill (p.2).employeeNumber 8 ∈
      ers.map fun r => zfill r.EmployeeNumber 8)
    (hv1 : zfill survey.employeeNumber 8 ∈
      ers.map fun r => zfill r.EmployeeNumber 8) :
    get_survey_responses (initialize_survey_csv ⟨some ers, none⟩) = [] ∧
    submit_survey now survey st =
      (.ok (survey_data now survey),
        ⟨some ers, some (rows ++ [survey_data now survey])⟩) ∧
    (survey_data now survey).EmployeeNumber =
      zfill survey.employeeNumber 8 ∧
    get_survey_responses (runSubmissions subs st) =
      rows ++ subs.map (fun p => survey_data p.1 p.2) ∧
    (get_survey_responses (runSubmissions subs st)).length =
      rows.length + subs.length := by
  have hrun := runSubmissions_state ers subs st rows hemp hsur hval
  refine ⟨rfl, submit_survey_valid now survey st ers rows hemp hsur hv1,
    rfl, ?_, ?_⟩
  · rw [hrun]
    rfl
  · rw [hrun]
    simp [get_survey_responses]

/-- Witness for C6: two accepted submissions on a freshly initialized
store yield two stored records in submission order. -/
theorem C6_submit_append_readAll_witness :
    get_survey_responses
        (runSubmissions [("T1", subValid), ("T2", subValid)]
          ⟨some rosterEx, some []⟩) =
      [survey_data "T1" subValid, survey_data "T2" subValid] := by
  have h := C6_submit_append_readAll rosterEx []
    [("T1", subValid), ("T2", subValid)] ⟨some rosterEx, some []⟩
    "T1" subValid rfl rfl (by decide) (by decide)
  exact h.2.2.2.1.trans (by simp)

/-- C10: the submit operation validates only the employee number, never
the employee name: a submission whose padded id is a roster number is
accepted whatever its `employeeName`, the stored `EmployeeName` is the
submitted name verbatim (even when it differs from the Roster's name
for that id), and every other submitted field is stored unchanged
except `bmi`, stored as `round(bmi, 1)`. -/
theorem C10_name_not_validated (now otherName : String)
    (survey : SurveySubmission) (st : FsState) (ers : List EmployeeRow)
    (rows : List SurveyRow)
    (hemp : st.employeesFile = some ers) (hsur : st.surveyFile = some rows)
    (hvalid : zfill survey.employeeNumber 8 ∈
      ers.map fun r => zfill r.EmployeeNumber 8) :
    submit_survey now survey st =
      (.ok (survey_data now survey),
        ⟨some ers, some (rows ++ [survey_data now survey])⟩) ∧
    (survey_data now survey).EmployeeNumber =
      zfill survey.employeeNumber 8 ∧
    (survey_data now survey).EmployeeName = survey.employeeName ∧
    (survey_data now survey).Gender = survey.gender ∧
    (survey_data now survey).Age = survey.age ∧
    (survey_data now survey).WaistCircumference =
      survey.waistCircumference ∧
    (survey_data now survey).HeightFeet = survey.heightFeet ∧
    (survey_data now survey).HeightInches = survey.heightInches ∧
    (survey_data now survey).WeightLb = survey.weight ∧
    (survey_data now survey).BMI = pyRound1 survey.bmi ∧
    (survey_data now survey).BMICategory = survey.bmiCategory ∧
    submit_survey now { survey with employeeName := otherName } st =
      (.ok (survey_data now { survey with employeeName := otherName }),
        ⟨some ers,
          some (rows ++
            [survey_data now { survey with employeeName := otherName }])⟩) ∧
    (survey_data now
      { survey with employeeName := otherName }).EmployeeName =
        otherName := by
  refine ⟨submit_survey_valid now survey st ers rows hemp hsur hvalid,
    rfl, rfl, rfl, rfl, rfl, rfl, rfl, rfl, rfl, rfl,
    submit_survey_valid now _ st ers rows hemp hsur hvalid, rfl⟩

lemma stats_totalResponses (df : SurveyDF) (hn : df.nrows ≠ 0) :
    (get_survey_statistics (some df)).totalResponses = df.nrows := by
  unfold get_survey_statistics
  dsimp only
  rw [if_neg hn]
  rfl

lemma stats_avgAge (df : SurveyDF) (hn : df.nrows ≠ 0) :
    (get_survey_statistics (some df)).avgAge =
      colAverage df.hasAge df.ageCol := by
  unfold get_survey_statistics
  dsimp only
  rw [if_neg hn]
  rfl

lemma stats_avgBMI (df : SurveyDF) (hn : df.nrows ≠ 0) :
    (get_survey_statistics (some df)).avgBMI =
      colAverage df.hasBMI df.bmiCol := by
  unfold get_survey_statistics
  dsimp only
  rw [if_neg hn]
  rfl

lemma stats_avgWaist (df : SurveyDF) (hn : df.nrows ≠ 0) :
    (get_survey_statistics (some df)).avgWaist =
      colAverage df.hasWaist df.waistCol := by
  unfold get_survey_statistics
  dsimp only
  rw [if_neg hn]
  rfl

lemma stats_avgWeight (df : SurveyDF) (hn : df.nrows ≠ 0) :
    (get_survey_statistics (some df)).avgWeight =
      colAverage df.hasWeight df.weightCol := by
  unfold get_survey_statistics
  dsimp only
  rw [if_neg hn]
  rfl

lemma stats_avgHeightFeet (df : SurveyDF) (hn : df.nrows ≠ 0) :
    (get_survey_statistics (some df)).avgHeightFeet =
      (heightPair df).1 := by
  unfold get_survey_statistics
  dsimp only
  rw [if_neg hn]
  rfl

lemma stats_avgHeightInches (df : SurveyDF) (hn : df.nrows ≠ 0) :
    (get_survey_statistics (some df)).avgHeightInches =
      (heightPair df).2 := by
  unfold get_survey_statistics
  dsimp only
  rw [if_neg hn]
  rfl

lemma colAverage_all_present (colHas : Bool) (col : List (Option ℚ))
    (vals : List ℚ) (n : Nat) (hhas : colHas = true)
    (hc : col = vals.map some) (hl : vals.length = n) (hn : n ≠ 0) :
    colAverage colHas col = pyRound1 (vals.sum / (n : ℚ)) := by
  subst hhas
  subst hc
  subst hl
  have h1 : (vals.map some).filterMap id = vals := by simp
  have hne : vals ≠ [] := by
    intro h
    rw [h] at hn
    simp at hn
  have h2 : isnaAll (vals.map some) = false := by
    simp [isnaAll, h1, hne]
  simp [colAverage, h2, h1, listMean]

lemma colAverage_missing (colHas : Bool) (col : List (Option ℚ))
    (h : colHas = false ∨ isnaAll col = true) :
    colAverage colHas col = 0 := by
  rcases h with h | h <;> simp [colAverage, h]

/-- Witness for C10: a submission under a name different from the
Roster's name for "00070098" is accepted and stored verbatim. -/
theorem C10_name_not_validated_witness :
    (survey_data "T1"
      { subValid with employeeName := "Not The Roster Name" }).EmployeeName =
      "Not The Roster Name" :=
  (C10_name_not_validated "T1" "Not The Roster Name" subValid
    ⟨some rosterEx, some []⟩ rosterEx [] rfl rfl (by decide)).2.2.2.2.2.2.2.2.2.2.2.2

/-- C7: the statistics operation returns the arithmetic mean, rounded to
one decimal place, of the age, bmi, waist-circumference and weight
columns over all stored records (`df`: every column present with every
value valid, as app-written rows are); any of these averages is 0 when
the corresponding column is entirely missing (`dfm`) or holds no valid
value (`dfe`); and with zero records (absent file, or a zero-row
DataFrame `df0`) the result is the `total_responses = 0` shape, which
carries no averages and involves no division. -/
theorem C7_statistics_means
    (df df0 dfm dfe : SurveyDF) (ages bmis waists weights : List ℚ)
    (hn : df.nrows ≠ 0)
    (hA : df.hasAge = true) (hAc : df.ageCol = ages.map some)
    (hAl : ages.length = df.nrows)
    (hB : df.hasBMI = true) (hBc : df.bmiCol = bmis.map some)
    (hBl : bmis.length = df.nrows)
    (hW : df.hasWaist = true) (hWc : df.waistCol = waists.map some)
    (hWl : waists.length = df.nrows)
    (hG : df.hasWeight = true) (hGc : df.weightCol = weights.map some)
    (hGl : weights.length = df.nrows)
    (h0 : df0.nrows = 0)
    (hmn : dfm.nrows ≠ 0)
    (hmA : dfm.hasAge = false) (hmB : dfm.hasBMI = false)
    (hmW : dfm.hasWaist = false) (hmG : dfm.hasWeight = false)
    (hen : dfe.nrows ≠ 0)
    (heA : isnaAll dfe.ageCol = true) (heB : isnaAll dfe.bmiCol = true)
    (heW : isnaAll dfe.waistCol = true)
    (heG : isnaAll dfe.weightCol = true) :
    get_survey_statistics none = .empty 0 "No survey data available" ∧
    get_survey_statistics (some df0) =
      .empty 0 "No survey responses available" ∧
    (get_survey_statistics (some df)).totalResponses = df.nrows ∧
    (get_survey_statistics (some df)).avgAge =
      pyRound1 (ages.sum / (df.nrows : ℚ)) ∧
    (get_survey_statistics (some df)).avgBMI =
      pyRound1 (bmis.sum / (df.nrows : ℚ)) ∧
    (get_survey_statistics (some df)).avgWaist =
      pyRound1 (waists.sum / (df.nrows : ℚ)) ∧
    (get_survey_statistics (some df)).avgWeight =
      pyRound1 (weights.sum / (df.nrows : ℚ)) ∧
    (get_survey_statistics (some dfm)).avgAge = 0 ∧
    (get_survey_statistics (some dfm)).avgBMI = 0 ∧
    (get_survey_statistics (some dfm)).avgWaist = 0 ∧
    (get_survey_statistics (some dfm)).avgWeight = 0 ∧
    (get_survey_statistics (some dfe)).avgAge = 0 ∧
    (get_survey_statistics (some dfe)).avgBMI = 0 ∧
    (get_survey_statistics (some dfe)).avgWaist = 0 ∧
    (get_survey_statistics (some dfe)).avgWeight = 0 := by
  refine ⟨rfl, ?_, stats_totalResponses df hn, ?_, ?_, ?_, ?_,
    ?_, ?_, ?_, ?_, ?_, ?_, ?_, ?_⟩
  · unfold get_survey_statistics
    dsimp only
    rw [if_pos h0]
  · rw [stats_avgAge df hn]
    exact colAverage_all_present _ _ ages df.nrows hA hAc hAl hn
  · rw [stats_avgBMI df hn]
    exact colAverage_all_present _ _ bmis df.nrows hB hBc hBl hn
  · rw [stats_avgWaist df hn]
    exact colAverage_all_present _ _ waists df.nrows hW hWc hWl hn
  · rw [stats_avgWeight df hn]
    exact colAverage_all_present _ _ weights df.nrows hG hGc hGl hn
  · rw [stats_avgAge dfm hmn]
    exact colAverage_missing _ _ (Or.inl hmA)
  · rw [stats_avgBMI dfm hmn]
    exact colAverage_missing _ _ (Or.inl hmB)
  · rw [stats_avgWaist dfm hmn]
    exact colAverage_missing _ _ (Or.inl hmW)
  · rw [stats_avgWeight dfm hmn]
    exact colAverage_missing _ _ (Or.inl hmG)
  · rw [stats_avgAge dfe hen]
    exact colAverage_missing _ _ (Or.inr heA)
  · rw [stats_avgBMI dfe hen]
    exact colAverage_missing _ _ (Or.inr heB)
  · rw [stats_avgWaist dfe hen]
    exact colAverage_missing _ _ (Or.inr heW)
  · rw [stats_avgWeight dfe hen]
    exact colAverage_missing _ _ (Or.inr heG)

/-- A two-row DataFrame as written by the app (ages 30 and 40). -/
def dfW : SurveyDF :=
  { nrows := 2
    hasGender := true
    genderCol := ["Male", "Female"]
    hasAge := true
    ageCol := [some 30, some 40]
    hasBMI := true
    bmiCol := [some 24, some 25]
    hasBMICategory := true
    bmiCategoryCol := ["Normal", "Normal"]
    hasWaist := true
    waistCol := [some 30, some 28]
    hasWeight := true
    weightCol := [some 150, some 160]
    hasHeightFeet := true
    heightFeetCol := [some 5, some 6]
    hasHeightInches := true
    heightInchesCol := [some 11, some 0] }

/-- A DataFrame with zero rows (header-only CSV). -/
def df0Ex : SurveyDF :=
  { nrows := 0
    hasGender := true
    genderCol := []
    hasAge := true
    ageCol := []
    hasBMI := true
    bmiCol := []
    hasBMICategory := true
    bmiCategoryCol := []
    hasWaist := true
    waistCol := []
    hasWeight := true
    weightCol := []
    hasHeightFeet := true
    heightFeetCol := []
    hasHeightInches := true
    heightInchesCol := [] }

/-- A one-row DataFrame in which every statistics column is missing. -/
def dfmEx : SurveyDF :=
  { nrows := 1
    hasGender := false
    genderCol := []
    hasAge := false
    ageCol := []
    hasBMI := false
    bmiCol := []
    hasBMICategory := false
    bmiCategoryCol := []
    hasWaist := false
    waistCol := []
    hasWeight := false
    weightCol := []
    hasHeightFeet := false
    heightFeetCol := []
    hasHeightInches := false
    heightInchesCol := [] }

/-- A one-row DataFrame in which every numeric column holds only NaN. -/
def dfeEx : SurveyDF :=
  { nrows := 1
    hasGender := true
    genderCol := ["Male"]
    hasAge := true
    ageCol := [none]
    hasBMI := true
    bmiCol := [none]
    hasBMICategory := true
    bmiCategoryCol := ["Normal"]
    hasWaist := true
    waistCol := [none]
    hasWeight := true
    weightCol := [none]
    hasHeightFeet := true
    heightFeetCol := [none]
    hasHeightInches := true
    heightInchesCol := [none] }

/-- Witness for C7: ages [30, 40] average to 35.0; a missing column and
an all-NaN column average to 0; zero rows give the total-0 shape. -/
theorem C7_statistics_means_witness :
    (get_survey_statistics (some dfW)).avgAge = 35 ∧
    (get_survey_statistics (some dfmEx)).avgAge = 0 ∧
    (get_survey_statistics (some dfeEx)).avgBMI = 0 ∧
    get_survey_statistics (some df0Ex) =
      .empty 0 "No survey responses available" := by
  have h := C7_statistics_means dfW df0Ex dfmEx dfeEx
    [30, 40] [24, 25] [30, 28] [150, 160]
    (by decide) rfl rfl rfl rfl rfl rfl rfl rfl rfl rfl rfl rfl
    rfl (by decide) rfl rfl rfl rfl (by decide) rfl rfl rfl rfl
  refine ⟨?_, h.2.2.2.2.2.2.2.1, h.2.2.2.2.2.2.2.2.2.2.2.2.1, h.2.1⟩
  rw [h.2.2.2.1]
  norm_num [dfW, pyRound1, pyRoundInt]

lemma mk_data (s : String) : String.mk s.data = s := rfl

lemma escChars_of_no_quote (l : List Char) (h : ∀ c ∈ l, c ≠ '\"') :
    escChars l = l := by
  induction l with
  | nil => rfl
  | cons c cs ih =>
    unfold escChars
    rw [if_neg (h c (List.mem_cons_self c cs))]
    rw [ih (fun x hx => h x (List.mem_cons_of_mem c hx))]

lemma quoteField_of_no_quote (c : String) (h : ∀ ch ∈ c.data, ch ≠ '\"') :
    quoteField c = "\"" ++ c ++ "\"" := by
  unfold quoteField csvEscape
  rw [escChars_of_no_quote c.data h, mk_data]

/-- C9: on a non-empty record set both export operations emit exactly
the 11 fixed columns in the fixed order (the two textually separate
column lists in the source are equal); every data row has exactly 11
cells with the stored `EmployeeNumber` string in position 2; and the
delimited-text form quotes every field, so a quote-free employee
identifier — leading zeros included — appears verbatim between double
quotes. -/
theorem C9_export_columns (st : FsState) (rows : List SurveyRow)
    (row : SurveyRow) (cells : List String) (c : String)
    (hs : st.surveyFile = some rows) (hne : rows ≠ [])
    (_hrow : row ∈ rows) (hq : ∀ ch ∈ c.data, ch ≠ '\"') :
    expected_columns =
      ["SubmissionDate", "EmployeeNumber", "EmployeeName", "Gender",
       "Age", "Waist Circumference (inches)", "Height - Feet",
       "Height - Inches", "Weight (lb)", "BMI", "BMI Category"] ∧
    excel_expected_columns = expected_columns ∧
    download_survey_responses st =
      .ok (to_csv_quote_all expected_columns (rows.map surveyRowCells)) ∧
    to_csv_quote_all expected_columns (rows.map surveyRowCells) =
      String.intercalate "\n"
        (csvLine expected_columns ::
          (rows.map surveyRowCells).map csvLine) ++ "\n" ∧
    download_survey_responses_excel st =
      .ok (excel_expected_columns :: rows.map surveyRowCells) ∧
    (surveyRowCells row).length = 11 ∧
    (surveyRowCells row)[1]? = some row.EmployeeNumber ∧
    csvLine cells = String.intercalate "," (cells.map quoteField) ∧
    quoteField c = "\"" ++ c ++ "\"" := by
  have hemp : rows.isEmpty = false := by
    simpa using hne
  refine ⟨rfl, rfl, ?_, rfl, ?_, rfl, rfl, rfl,
    quoteField_of_no_quote c hq⟩
  · unfold download_survey_responses download_survey_responses_try
    rw [hs]
    simp [hemp]
  · unfold download_survey_responses_excel
      download_survey_responses_excel_try
    rw [hs]
    simp [hemp]

/-- A concrete stored row with a leading-zero employee number. -/
def rowEx : SurveyRow :=
  ⟨"2026-01-01 00:00:00", "00070098", "Aye Aye Tun", "Female", 30, 30,
    5, 11, 150, 243/10, "Normal"⟩

/-- Witness for C9 at a one-row store: the CSV field for the employee
number is exactly `"00070098"` in quotes, and the cell grid of the
spreadsheet export starts with the 11 fixed headers. -/
theorem C9_export_columns_witness :
    quoteField "00070098" = "\"00070098\"" ∧
    download_survey_responses_excel ⟨some rosterEx, some [rowEx]⟩ =
      .ok [expected_columns, surveyRowCells rowEx] := by
  have h := C9_export_columns ⟨some rosterEx, some [rowEx]⟩ [rowEx]
    rowEx ["a"] "00070098" rfl (by decide) (List.mem_cons_self rowEx [])
    (by decide)
  refine ⟨h.2.2.2.2.2.2.2.2.trans (by decide), ?_⟩
  rw [h.2.2.2.2.1]
  rfl

lemma heightPair_valid (df : SurveyDF) (tvals : List ℚ)
    (hHF : df.hasHeightFeet = true) (hHI : df.hasHeightInches = true)
    (htv : (heightTotals df).filterMap id = tvals) (htne : tvals ≠ [])
    (hpos : 0 < pyRound1 (listMean tvals)) :
    heightPair df =
      (⌊pyRound1 (listMean tvals) / 12⌋,
       pyRound1 (pyRound1 (listMean tvals) -
         12 * (⌊pyRound1 (listMean tvals) / 12⌋ : ℚ))) := by
  have hna : isnaAll (heightTotals df) = false := by
    unfold isnaAll
    rw [htv]
    simpa using htne
  have h1 : (df.hasHeightFeet && df.hasHeightInches) = true := by
    rw [hHF, hHI]
    rfl
  unfold heightPair
  rw [if_pos h1]
  dsimp only
  rw [hna, htv]
  simp [hpos]

lemma heightPair_col_missing (df : SurveyDF)
    (h : df.hasHeightFeet = false ∨ df.hasHeightInches = false) :
    heightPair df = (0, 0) := by
  rcases h with h | h <;> simp [heightPair, h]

lemma heightPair_no_valid (df : SurveyDF)
    (hz : isnaAll (heightTotals df) = true) :
    heightPair df = (0, 0) := by
  unfold heightPair
  by_cases h1 : (df.hasHeightFeet && df.hasHeightInches) = true
  · rw [if_pos h1]
    dsimp only
    rw [hz]
    simp
  · rw [if_neg h1]

/-- A stored row with the given height, as produced by an accepted
submission. -/
def mkRowH (f i : Int) : SurveyRow :=
  ⟨"2026-01-01 00:00:00", "00070098", "Aye Aye Tun", "Female", 30, 30,
    f, i, 150, 24, "Normal"⟩

/-- Twenty stored rows: nineteen at 6 ft 0 in (72 total inches) and one
at 5 ft 11 in (71 total inches); mean height 1439/20 = 71.95 inches. -/
def rows20 : List SurveyRow :=
  [mkRowH 6 0, mkRowH 6 0, mkRowH 6 0, mkRowH 6 0, mkRowH 6 0,
   mkRowH 6 0, mkRowH 6 0, mkRowH 6 0, mkRowH 6 0, mkRowH 6 0,
   mkRowH 6 0, mkRowH 6 0, mkRowH 6 0, mkRowH 6 0, mkRowH 6 0,
   mkRowH 6 0, mkRowH 6 0, mkRowH 6 0, mkRowH 6 0, mkRowH 5 11]

/-- The DataFrame read back from the twenty stored rows. -/
def dfC8 : SurveyDF := rowsToDF rows20

lemma dfC8_mean : listMean ((heightTotals dfC8).filterMap id) =
    1439/20 := by
  simp [dfC8, rows20, mkRowH, rowsToDF, heightTotals, listMean]
  norm_num

lemma dfC8_avg :
    pyRound1 (listMean ((heightTotals dfC8).filterMap id)) = 72 := by
  rw [dfC8_mean]
  have hf : ⌊(1439/20 : ℚ) * 10⌋ = 719 := by
    rw [Int.floor_eq_iff]; norm_num
  unfold pyRound1 pyRoundInt
  dsimp only
  rw [hf]
  norm_num

lemma dfC8_heightPair : heightPair dfC8 = (6, 0) := by
  rw [heightPair_valid dfC8 ((heightTotals dfC8).filterMap id) rfl rfl
    rfl (by decide) (by rw [dfC8_avg]; norm_num)]
  rw [dfC8_avg]
  have hfl : ⌊(72 : ℚ) / 12⌋ = 6 := by
    rw [Int.floor_eq_iff]; norm_num
  rw [hfl]
  have hz : pyRound1 ((72 : ℚ) - 12 * ((6 : ℤ) : ℚ)) = 0 := by
    unfold pyRound1 pyRoundInt
    dsimp only
    norm_num
  rw [hz]

/-- C8 counterexample: over twenty stored records with total-inches
values 72 (nineteen times) and 71 (once), the exact average is
1439/20 = 71.95, so the claim's decomposition — feet as the integer
floor of the average divided by 12, inches as the remainder rounded to
one decimal — yields feet 5, inches 12.0; the code instead first rounds
the average to one decimal (72.0) and then decomposes, reporting feet 6,
inches 0.0.  The claim is therefore false on this input. -/
theorem C8_height_rounding_counterexample :
    listMean ((heightTotals dfC8).filterMap id) = 1439/20 ∧
    (⌊(1439/20 : ℚ) / 12⌋ : ℤ) = 5 ∧
    pyRound1 ((1439/20 : ℚ) - 12 * ((5 : ℤ) : ℚ)) = 12 ∧
    (get_survey_statistics (some dfC8)).avgHeightFeet = 6 ∧
    (get_survey_statistics (some dfC8)).avgHeightInches = 0 := by
  have h5 : (⌊(1439/20 : ℚ) / 12⌋ : ℤ) = 5 := by
    rw [Int.floor_eq_iff]; norm_num
  have h12 : pyRound1 ((1439/20 : ℚ) - 12 * ((5 : ℤ) : ℚ)) = 12 := by
    have hf : ⌊((1439/20 : ℚ) - 12 * ((5 : ℤ) : ℚ)) * 10⌋ = 119 := by
      rw [Int.floor_eq_iff]; norm_num
    unfold pyRound1 pyRoundInt
    dsimp only
    rw [hf]
    norm_num
  refine ⟨dfC8_mean, h5, h12, ?_, ?_⟩
  · rw [stats_avgHeightFeet dfC8 (by decide), dfC8_heightPair]
  · rw [stats_avgHeightInches dfC8 (by decide), dfC8_heightPair]

/-- C8 (amended): the statistics operation converts each record's
height to total inches as feet*12+inches, averages over the valid
values, rounds the average to one decimal place, and only then — when
the rounded average is positive — reports feet as the integer floor of
the rounded average divided by 12 and inches as the rounded average
modulo 12, rounded to one decimal; it reports feet 0 and inches 0 when
a height column is missing or when no valid height data exists. -/
theorem C8_height_decomposition_amended
    (df dfn dfz : SurveyDF) (tvals : List ℚ)
    (hn : df.nrows ≠ 0)
    (hHF : df.hasHeightFeet = true) (hHI : df.hasHeightInches = true)
    (htv : (heightTotals df).filterMap id = tvals) (htne : tvals ≠ [])
    (hpos : 0 < pyRound1 (listMean tvals))
    (hnn : dfn.nrows ≠ 0) (hnH : dfn.hasHeightFeet = false)
    (hzn : dfz.nrows ≠ 0)
    (hz : isnaAll (heightTotals dfz) = true) :
    (get_survey_statistics (some df)).avgHeightFeet =
      ⌊pyRound1 (listMean tvals) / 12⌋ ∧
    (get_survey_statistics (some df)).avgHeightInches =
      pyRound1 (pyRound1 (listMean tvals) -
        12 * (⌊pyRound1 (listMean tvals) / 12⌋ : ℚ)) ∧
    (get_survey_statistics (some dfn)).avgHeightFeet = 0 ∧
    (get_survey_statistics (some dfn)).avgHeightInches = 0 ∧
    (get_survey_statistics (some dfz)).avgHeightFeet = 0 ∧
    (get_survey_statistics (some dfz)).avgHeightInches = 0 := by
  have hv := heightPair_valid df tvals hHF hHI htv htne hpos
  have hm := heightPair_col_missing dfn (Or.inl hnH)
  have hzp := heightPair_no_valid dfz hz
  refine ⟨?_, ?_, ?_, ?_, ?_, ?_⟩
  · rw [stats_avgHeightFeet df hn, hv]
  · rw [stats_avgHeightInches df hn, hv]
  · rw [stats_avgHeightFeet dfn hnn, hm]
  · rw [stats_avgHeightInches dfn hnn, hm]
  · rw [stats_avgHeightFeet dfz hzn, hzp]
  · rw [stats_avgHeightInches dfz hzn, hzp]

/-- Witness for C8 (amended) at the twenty concrete rows (rounded
average 72.0 → 6 ft 0.0 in), a missing-column DataFrame and an all-NaN
DataFrame. -/
theorem C8_height_decomposition_amended_witness :
    (get_survey_statistics (some dfC8)).avgHeightFeet = 6 ∧
    (get_survey_statistics (some dfmEx)).avgHeightFeet = 0 ∧
    (get_survey_statistics (some dfeEx)).avgHeightInches = 0 := by
  have h := C8_height_decomposition_amended dfC8 dfmEx dfeEx
    ((heightTotals dfC8).filterMap id) (by decide) rfl rfl rfl
    (by decide) (by rw [dfC8_avg]; norm_num) (by decide) rfl
    (by decide) rfl
  refine ⟨?_, h.2.2.1, h.2.2.2.2.2⟩
  rw [h.1, dfC8_avg]
  rw [Int.floor_eq_iff]; norm_num

end PahtamaSurvey
